import Mathlib

/-!
Verification of the Myntra product extraction service (`main.py`).

The service is embedded shallowly:

* `JsonV` is the generic decoded value (`json.loads` output); numbers are
  modelled as integers (no claim involves fractional values).
* `truthy`, `pyGet`, `pyGetD`, `pyOr`, `pyIndex0`, `pyInt` model Python
  truthiness, `dict.get`, `x or y`, `xs[0]` and `int(x)`; a raised Python
  exception is an `Except.error` carrying the exception's name.
* `loads` models `json.loads` on a character list: parse one value, then
  fail with `Extra data` unless only whitespace remains.
* `locateAndMap` models steps 3-5 of `fetch_myntra_product`: the markup is
  abstracted to the list of its script texts in document order (the DOM
  parser is an external collaborator).
* `fetchMyntraProduct` models the whole handler on the parsed host
  (`urlparse` is external) and an optional upstream response (`none` is a
  transport failure); it also counts the outbound fetches performed.
-/

/-- Generic JSON-like value decoded from the script blob. -/
inductive JsonV where
  | null : JsonV
  | bool (b : Bool) : JsonV
  | num (n : Int) : JsonV
  | str (s : String) : JsonV
  | arr (xs : List JsonV) : JsonV
  | obj (kvs : List (String × JsonV)) : JsonV

/-- Python truthiness of a decoded value (`bool(v)`). -/
def truthy : JsonV → Bool
  | .null => false
  | .bool b => b
  | .num n => n != 0
  | .str s => !(s.toList.isEmpty)
  | .arr xs => !xs.isEmpty
  | .obj kvs => !kvs.isEmpty

/-- `isinstance(v, list)`. -/
def isArr : JsonV → Bool
  | .arr _ => true
  | _ => false

/-- `isinstance(v, dict)`. -/
def isObj : JsonV → Bool
  | .obj _ => true
  | _ => false

/-- Python dict lookup on the member list; later duplicate keys shadow
earlier ones, as in `json.loads`. -/
def objLookup (kvs : List (String × JsonV)) (k : String) : Option JsonV :=
  match kvs.reverse.find? (fun p => p.1 == k) with
  | some p => some p.2
  | none => none

/-- `v.get(k)`: `None` when the key is absent; raises `AttributeError`
when the receiver is not a dict. -/
def pyGet : JsonV → String → Except String JsonV
  | .obj kvs, k =>
    .ok (match objLookup kvs k with
      | some v => v
      | none => .null)
  | _, _ => .error "AttributeError"

/-- `v.get(k, d)`: like `pyGet` with an explicit default. -/
def pyGetD : JsonV → String → JsonV → Except String JsonV
  | .obj kvs, k, d =>
    .ok (match objLookup kvs k with
      | some v => v
      | none => d)
  | _, _, _ => .error "AttributeError"

/-- Python `a or b` on decoded values. -/
def pyOr (a b : JsonV) : JsonV :=
  if truthy a then a else b

/-- `v[0]` on a decoded value, as evaluated by Python at each type. -/
def pyIndex0 : JsonV → Except String JsonV
  | .arr (x :: _) => .ok x
  | .arr [] => .error "IndexError"
  | .str s =>
    match s.toList with
    | c :: _ => .ok (.str (String.mk [c]))
    | [] => .error "IndexError"
  | .obj _ => .error "KeyError"
  | _ => .error "TypeError"

/-- `int(v)`: identity on numbers, 0/1 on booleans, decimal parse on
strings, `TypeError` otherwise. -/
def pyInt : JsonV → Except String Int
  | .num n => .ok n
  | .bool b => .ok (if b then 1 else 0)
  | .str s =>
    match s.toInt? with
    | some n => .ok n
    | none => .error "ValueError"
  | _ => .error "TypeError"

/-- Validation of a `str`-typed response field: any non-string value is
rejected when the response model is constructed. -/
def asStr : JsonV → Except String String
  | .str s => .ok s
  | _ => .error "ValidationError"

/-- The fixed 5-field response model (`ProductResponse` in `main.py`). -/
structure ProductResponse where
  title : String
  primary_image : String
  original_price : Int
  discounted_price : Int
  in_stock : Bool
deriving DecidableEq

/-! ### JSON decoding (`json.loads`) -/

def qmark : Char := Char.ofNat 34

def bslash : Char := Char.ofNat 92

def lbrace : Char := Char.ofNat 123

def rbrace : Char := Char.ofNat 125

def lbrack : Char := '['

def rbrack : Char := ']'

/-- JSON insignificant whitespace. -/
def jWs (c : Char) : Bool :=
  c = ' ' || c = '\t' || c = '\n' || c = '\r'

def skipWs : List Char → List Char
  | [] => []
  | c :: rest => if jWs c then skipWs rest else c :: rest

/-- Hexadecimal digit value, for `\u` escapes. -/
def hexVal (c : Char) : Option Nat :=
  if c.isDigit then some (c.toNat - 48)
  else if 'a' ≤ c ∧ c ≤ 'f' then some (c.toNat - 87)
  else if 'A' ≤ c ∧ c ≤ 'F' then some (c.toNat - 55)
  else none

/-- Single-character JSON string escapes. -/
def escChar (e : Char) : Option Char :=
  if e = qmark then some qmark
  else if e = bslash then some bslash
  else if e = '/' then some '/'
  else if e = 'n' then some '\n'
  else if e = 't' then some '\t'
  else if e = 'r' then some '\r'
  else if e = 'b' then some (Char.ofNat 8)
  else if e = 'f' then some (Char.ofNat 12)
  else none

/-- Body of a JSON string, after the opening quote; returns the decoded
characters and the remainder after the closing quote. -/
def parseStrChars : List Char → Option (List Char × List Char)
  | [] => none
  | c :: rest =>
    if c = qmark then some ([], rest)
    else if c = bslash then
      match rest with
      | [] => none
      | e :: rest2 =>
        if e = 'u' then
          match rest2 with
          | h1 :: h2 :: h3 :: h4 :: rest3 =>
            match hexVal h1, hexVal h2, hexVal h3, hexVal h4 with
            | some a, some b, some c2, some d =>
              match parseStrChars rest3 with
              | some (out, rem) =>
                some (Char.ofNat (((a * 16 + b) * 16 + c2) * 16 + d) :: out, rem)
              | none => none
            | _, _, _, _ => none
          | _ => none
        else
          match escChar e with
          | some ce =>
            match parseStrChars rest2 with
            | some (out, rem) => some (ce :: out, rem)
            | none => none
          | none => none
    else
      match parseStrChars rest with
      | some (out, rem) => some (c :: out, rem)
      | none => none

/-- Decimal digit run, accumulating its value. -/
def digitsAcc (acc : Nat) : List Char → Nat × List Char
  | [] => (acc, [])
  | c :: rest =>
    if c.isDigit then digitsAcc (acc * 10 + (c.toNat - 48)) rest
    else (acc, c :: rest)

/-- JSON number (modelled on integers): optional minus sign then digits. -/
def parseNum : List Char → Option (Int × List Char)
  | [] => none
  | c :: rest =>
    if c = '-' then
      match rest with
      | d :: _ =>
        if d.isDigit then
          let p := digitsAcc 0 rest
          some (-(Int.ofNat p.1), p.2)
        else none
      | [] => none
    else if c.isDigit then
      let p := digitsAcc 0 (c :: rest)
      some (Int.ofNat p.1, p.2)
    else none

mutual

/-- One JSON value (fuel-indexed recursive-descent parse). -/
def parseVal : Nat → List Char → Option (JsonV × List Char)
  | 0, _ => none
  | fuel + 1, cs =>
    match skipWs cs with
    | [] => none
    | c :: rest =>
      if c = lbrace then
        match skipWs rest with
        | d :: rest2 =>
          if d = rbrace then some (.obj [], rest2)
          else
            match parseMembers fuel (d :: rest2) with
            | some (ms, r2) => some (.obj ms, r2)
            | none => none
        | [] => none
      else if c = lbrack then
        match skipWs rest with
        | d :: rest2 =>
          if d = rbrack then some (.arr [], rest2)
          else
            match parseElems fuel (d :: rest2) with
            | some (vs, r2) => some (.arr vs, r2)
            | none => none
        | [] => none
      else if c = qmark then
        match parseStrChars rest with
        | some (out, rem) => some (.str (String.mk out), rem)
        | none => none
      else if c = 't' then
        match rest with
        | 'r' :: 'u' :: 'e' :: r2 => some (.bool true, r2)
        | _ => none
      else if c = 'f' then
        match rest with
        | 'a' :: 'l' :: 's' :: 'e' :: r2 => some (.bool false, r2)
        | _ => none
      else if c = 'n' then
        match rest with
        | 'u' :: 'l' :: 'l' :: r2 => some (.null, r2)
        | _ => none
      else
        match parseNum (c :: rest) with
        | some (n, r2) => some (.num n, r2)
        | none => none

/-- Nonempty member list of a JSON object, up to and including the
closing brace. -/
def parseMembers : Nat → List Char → Option (List (String × JsonV) × List Char)
  | 0, _ => none
  | fuel + 1, cs =>
    match skipWs cs with
    | q :: rest =>
      if q = qmark then
        match parseStrChars rest with
        | some (kcs, r1) =>
          match skipWs r1 with
          | c1 :: r2 =>
            if c1 = ':' then
              match parseVal fuel r2 with
              | some (v, r3) =>
                match skipWs r3 with
                | c2 :: r4 =>
                  if c2 = ',' then
                    match parseMembers fuel r4 with
                    | some (ms, r5) => some ((String.mk kcs, v) :: ms, r5)
                    | none => none
                  else if c2 = rbrace then some ([(String.mk kcs, v)], r4)
                  else none
                | [] => none
              | none => none
            else none
          | [] => none
        | none => none
      else none
    | [] => none

/-- Nonempty element list of a JSON array, up to and including the
closing bracket. -/
def parseElems : Nat → List Char → Option (List JsonV × List Char)
  | 0, _ => none
  | fuel + 1, cs =>
    match parseVal fuel cs with
    | some (v, r1) =>
      match skipWs r1 with
      | c1 :: r2 =>
        if c1 = ',' then
          match parseElems fuel r2 with
          | some (vs, r3) => some (v :: vs, r3)
          | none => none
        else if c1 = rbrack then some ([v], r2)
        else none
      | [] => none
    | none => none

end

/-- `json.loads`: decode one value; any trailing non-whitespace is the
`Extra data` error. -/
def loads (cs : List Char) : Except String JsonV :=
  match parseVal (cs.length + 2) cs with
  | some (v, rest) =>
    if skipWs rest = [] then .ok v else .error "Extra data"
  | none => .error "Expecting value"

/-! ### Substring search (Python `in` on strings) -/

def containsSub (needle hay : List Char) : Bool :=
  if needle.isPrefixOf hay then true
  else
    match hay with
    | [] => false
    | _ :: t => containsSub needle t

def markerChars : List Char := String.toList "pdpData"

def domainChars : List Char := String.toList "myntra.com"

def accessDeniedChars : List Char := String.toList "Access Denied"

def noPermChars : List Char := String.toList "You don't have permission"

/-! ### Field Mapper (`main.py` lines 102-160) -/

/-- `data = raw_data.get("pdpData") or raw_data`. -/
def effectiveRecord (raw : JsonV) : Except String JsonV :=
  Except.bind (pyGet raw "pdpData") (fun pdp => .ok (pyOr pdp raw))

/-- `data.get("name") or data.get("product", {}).get("productName") or
"Unknown Product"`, with Python's short-circuit evaluation. -/
def titleExpr (data : JsonV) : Except String JsonV :=
  Except.bind (pyGet data "name") (fun nm =>
    if truthy nm then .ok nm
    else
      Except.bind (pyGetD data "product" (.obj [])) (fun pd =>
        Except.bind (pyGet pd "productName") (fun pn =>
          .ok (if truthy pn then pn else .str "Unknown Product"))))

/-- The media→albums→images descent of lines 115-130, ending with the
`if not primary_image: primary_image = ""` default. -/
def imageExpr (data : JsonV) : Except String JsonV :=
  Except.bind (pyGet data "media") (fun m =>
    Except.bind (pyGet (pyOr m (.obj [])) "albums") (fun a =>
      let albums := pyOr a (.arr [])
      Except.bind
        (if truthy albums && isArr albums then
          Except.bind (pyIndex0 albums) (fun a0 =>
            Except.bind (pyGet a0 "images") (fun im =>
              let images := pyOr im (.arr [])
              if truthy images then
                Except.bind (pyIndex0 images) (fun img =>
                  Except.bind (pyGet img "secureSrc") (fun s1 =>
                    if truthy s1 then .ok s1
                    else
                      Except.bind (pyGet img "imageURL") (fun s2 =>
                        if truthy s2 then .ok s2
                        else pyGet img "src")))
              else .ok .null))
        else .ok .null)
        (fun p => .ok (if truthy p then p else .str ""))))

/-- `price_info = data.get("price") or {}`. -/
def priceInfoExpr (data : JsonV) : Except String JsonV :=
  Except.bind (pyGet data "price") (fun p => .ok (pyOr p (.obj [])))

/-- `data.get("mrp") or price_info.get("mrp") or price_info.get("marked")
or 0`, short-circuited. -/
def originalExpr (data pinfo : JsonV) : Except String JsonV :=
  Except.bind (pyGet data "mrp") (fun a =>
    if truthy a then .ok a
    else
      Except.bind (pyGet pinfo "mrp") (fun b =>
        if truthy b then .ok b
        else
          Except.bind (pyGet pinfo "marked") (fun c =>
            .ok (if truthy c then c else .num 0))))

/-- `data.get("discountedPrice") or price_info.get("discountedPrice") or
price_info.get("effective") or original_price`, short-circuited. -/
def discountedExpr (data pinfo op : JsonV) : Except String JsonV :=
  Except.bind (pyGet data "discountedPrice") (fun a =>
    if truthy a then .ok a
    else
      Except.bind (pyGet pinfo "discountedPrice") (fun b =>
        if truthy b then .ok b
        else
          Except.bind (pyGet pinfo "effective") (fun c =>
            .ok (if truthy c then c else op))))

/-- `flags = data.get("flags") or {}` and
`in_stock = not flags.get("outOfStock", False)`. -/
def stockExpr (data : JsonV) : Except String Bool :=
  Except.bind (pyGet data "flags") (fun f =>
    Except.bind (pyGetD (pyOr f (.obj [])) "outOfStock" (.bool false)) (fun oos =>
      .ok (!(truthy oos))))

/-- The Field Mapper: lines 102-160 of `main.py`, in Python's evaluation
order (the two `int(...)` casts run before the response model validates
its string fields). -/
def mapRecord (raw : JsonV) : Except String ProductResponse :=
  Except.bind (effectiveRecord raw) (fun data =>
    Except.bind (titleExpr data) (fun title =>
      Except.bind (imageExpr data) (fun pimg =>
        Except.bind (priceInfoExpr data) (fun pinfo =>
          Except.bind (originalExpr data pinfo) (fun opv =>
            Except.bind (discountedExpr data pinfo opv) (fun dpv =>
              Except.bind (stockExpr data) (fun stk =>
                Except.bind (pyInt (pyOr opv (.num 0))) (fun opn =>
                  Except.bind (pyInt (pyOr dpv (.num 0))) (fun dpn =>
                    Except.bind (asStr title) (fun ts =>
                      Except.bind (asStr pimg) (fun ps =>
                        .ok ⟨ts, ps, opn, dpn, stk⟩)))))))))))

/-! ### Blob Locator and pipeline (`main.py` lines 76-160) -/

/-- A handler outcome other than a normal response: either a raised
`HTTPException` (status and detail) or an exception that escapes the
handler unclassified. -/
inductive PyErr where
  | http (status : Nat) (detail : String) : PyErr
  | uncaught (exc : String) : PyErr
deriving DecidableEq

/-- Text of the first script containing the marker token, as the loop of
lines 79-84 finds it. -/
def findScript : List String → Option (List Char)
  | [] => none
  | s :: rest =>
    let cs := s.toList
    if containsSub markerChars cs then some cs else findScript rest

/-- `script_text[script_text.index("{"):]`: suffix from the first brace;
`str.index` raises `ValueError` when no brace occurs. -/
def extractJsonStr (t : List Char) : Except String (List Char) :=
  if t.contains lbrace then .ok (t.dropWhile (fun c => c ≠ lbrace))
  else .error "substring not found"

/-- Steps 3-5 of `fetch_myntra_product` on the markup's script texts:
locate the marker script, decode the brace-suffix, map the record.
Failures of the locate/decode stages raise `HTTPException(500, ...)`;
a mapping failure escapes the handler uncaught. -/
def locateAndMap (scripts : List String) : Except PyErr ProductResponse :=
  match findScript scripts with
  | none => .error (.http 500 "Unable to locate product data (pdpData) in page")
  | some t =>
    if t.isEmpty then
      .error (.http 500 "Unable to locate product data (pdpData) in page")
    else
      match extractJsonStr t with
      | .error e => .error (.http 500 ("Failed to parse product JSON: " ++ e))
      | .ok js =>
        match loads js with
        | .error e => .error (.http 500 ("Failed to parse product JSON: " ++ e))
        | .ok raw =>
          match mapRecord raw with
          | .error e => .error (.uncaught e)
          | .ok r => .ok r

/-! ### Request Handler (`fetch_myntra_product`) -/

/-- An upstream HTTP response: status code and body text. -/
structure UpstreamResp where
  status : Nat
  body : String

/-- `fetch_myntra_product`, on the parsed host (`urlparse(url).netloc`,
the URL parser being external) and the outcome of the single `requests.get`
(`none` models a raised `requests.RequestException`). `extractScripts`
stands for the external DOM parser turning markup into script texts.
The second component counts outbound fetches performed. -/
def fetchMyntraProduct (extractScripts : String → List String)
    (netloc : String) (net : Option UpstreamResp) :
    Except PyErr ProductResponse × Nat :=
  if containsSub domainChars netloc.toList = false then
    (.error (.http 400 "Only myntra.com product URLs are supported"), 0)
  else
    match net with
    | none => (.error (.http 502 "Network error while fetching Myntra page"), 1)
    | some r =>
      if r.status ≠ 200 then
        (.error (.http r.status ("Myntra returned HTTP " ++ toString r.status)), 1)
      else if containsSub accessDeniedChars r.body.toList
          || containsSub noPermChars r.body.toList then
        (.error (.http 403
          "Myntra blocked the request (Access Denied). Try again or use another proxy."), 1)
      else
        (locateAndMap (extractScripts r.body), 1)

/-! ### Helper lemmas -/

theorem exc_bind_ok {ε α β : Type} {x : Except ε α} {f : α → Except ε β} {b : β}
    (h : Except.bind x f = .ok b) : ∃ a, x = .ok a ∧ f a = .ok b := by
  cases x with
  | error e => simp [Except.bind] at h
  | ok a => exact ⟨a, rfl, h⟩

theorem findScript_marker : ∀ (scripts : List String) (t : List Char),
    findScript scripts = some t → containsSub markerChars t = true := by
  intro scripts
  induction scripts with
  | nil => intro t h; simp [findScript] at h
  | cons s rest ih =>
    intro t h
    rw [show findScript (s :: rest)
        = if containsSub markerChars s.toList then some s.toList
          else findScript rest from rfl] at h
    cases hcs : containsSub markerChars s.toList with
    | true =>
      rw [hcs] at h
      simp at h
      rw [← h]
      exact hcs
    | false =>
      rw [hcs] at h
      simp at h
      exact ih t h

theorem marker_text_ne_empty (t : List Char)
    (h : containsSub markerChars t = true) : t.isEmpty = false := by
  cases t with
  | nil =>
    rw [show containsSub markerChars ([] : List Char) = false by decide] at h
    cases h
  | cons c cs => rfl

theorem pyGet_nonobj (v : JsonV) (k : String) (hob : isObj v = false) :
    pyGet v k = .error "AttributeError" := by
  cases v <;> simp [pyGet, isObj] at *

/-- A mapping over a truthy non-mapping effective record raises at the
very first field access. -/
theorem mapRecord_nonobj (raw v : JsonV)
    (hp : pyGet raw "pdpData" = .ok v)
    (htr : truthy v = true)
    (hob : isObj v = false) :
    mapRecord raw = .error "AttributeError" := by
  unfold mapRecord effectiveRecord
  rw [hp]
  simp only [Except.bind]
  rw [show pyOr v raw = v by simp [pyOr, htr]]
  unfold titleExpr
  rw [pyGet_nonobj v "name" hob]
  simp only [Except.bind]

/-- Decomposition of a successful mapping into its pricing equations. -/
theorem mapRecord_ok_parts (raw : JsonV) (r : ProductResponse)
    (hm : mapRecord raw = .ok r) :
    ∃ data pinfo opv dpv,
      effectiveRecord raw = .ok data ∧
      priceInfoExpr data = .ok pinfo ∧
      originalExpr data pinfo = .ok opv ∧
      discountedExpr data pinfo opv = .ok dpv ∧
      pyInt (pyOr opv (.num 0)) = .ok r.original_price ∧
      pyInt (pyOr dpv (.num 0)) = .ok r.discounted_price := by
  unfold mapRecord at hm
  obtain ⟨data, hd, hm⟩ := exc_bind_ok hm
  obtain ⟨title, ht, hm⟩ := exc_bind_ok hm
  obtain ⟨pimg, hi, hm⟩ := exc_bind_ok hm
  obtain ⟨pinfo, hp, hm⟩ := exc_bind_ok hm
  obtain ⟨opv, ho, hm⟩ := exc_bind_ok hm
  obtain ⟨dpv, hdc, hm⟩ := exc_bind_ok hm
  obtain ⟨stk, hs, hm⟩ := exc_bind_ok hm
  obtain ⟨opn, hon, hm⟩ := exc_bind_ok hm
  obtain ⟨dpn, hdn, hm⟩ := exc_bind_ok hm
  obtain ⟨ts, hts, hm⟩ := exc_bind_ok hm
  obtain ⟨ps, hps, hm⟩ := exc_bind_ok hm
  injection hm with hr
  subst hr
  exact ⟨data, pinfo, opv, dpv, hd, hp, ho, hdc, hon, hdn⟩

theorem originalExpr_cases (data pinfo v : JsonV)
    (h : originalExpr data pinfo = .ok v) :
    (pyGet data "mrp" = .ok v ∧ truthy v = true) ∨
    (pyGet pinfo "mrp" = .ok v ∧ truthy v = true) ∨
    (pyGet pinfo "marked" = .ok v ∧ truthy v = true) ∨
    v = JsonV.num 0 := by
  unfold originalExpr at h
  obtain ⟨a, ha, h⟩ := exc_bind_ok h
  by_cases hta : truthy a = true
  · rw [if_pos hta] at h
    injection h with h
    subst h
    exact Or.inl ⟨ha, hta⟩
  · rw [if_neg hta] at h
    obtain ⟨b, hb, h⟩ := exc_bind_ok h
    by_cases htb : truthy b = true
    · rw [if_pos htb] at h
      injection h with h
      subst h
      exact Or.inr (Or.inl ⟨hb, htb⟩)
    · rw [if_neg htb] at h
      obtain ⟨c, hc, h⟩ := exc_bind_ok h
      injection h with h
      by_cases htc : truthy c = true
      · rw [if_pos htc] at h
        subst h
        exact Or.inr (Or.inr (Or.inl ⟨hc, htc⟩))
      · rw [if_neg htc] at h
        subst h
        exact Or.inr (Or.inr (Or.inr rfl))

theorem discountedExpr_cases (data pinfo op v : JsonV)
    (h : discountedExpr data pinfo op = .ok v) :
    (pyGet data "discountedPrice" = .ok v ∧ truthy v = true) ∨
    (pyGet pinfo "discountedPrice" = .ok v ∧ truthy v = true) ∨
    (pyGet pinfo "effective" = .ok v ∧ truthy v = true) ∨
    v = op := by
  unfold discountedExpr at h
  obtain ⟨a, ha, h⟩ := exc_bind_ok h
  by_cases hta : truthy a = true
  · rw [if_pos hta] at h
    injection h with h
    subst h
    exact Or.inl ⟨ha, hta⟩
  · rw [if_neg hta] at h
    obtain ⟨b, hb, h⟩ := exc_bind_ok h
    by_cases htb : truthy b = true
    · rw [if_pos htb] at h
      injection h with h
      subst h
      exact Or.inr (Or.inl ⟨hb, htb⟩)
    · rw [if_neg htb] at h
      obtain ⟨c, hc, h⟩ := exc_bind_ok h
      injection h with h
      by_cases htc : truthy c = true
      · rw [if_pos htc] at h
        subst h
        exact Or.inr (Or.inr (Or.inl ⟨hc, htc⟩))
      · rw [if_neg htc] at h
        subst h
        exact Or.inr (Or.inr (Or.inr rfl))

/-- A price source position whose value, when cast, is never negative. -/
def nonNegSrc (e : Except String JsonV) : Prop :=
  ∀ v n, e = .ok v → pyInt v = .ok n → 0 ≤ n

/-! ### Concrete inputs used in scenarios -/

/-- The script text of spec scenario 5. -/
def shoeScript : String :=
  "var pdpData=\x7b\"name\":\"Shoe\",\"mrp\":2000,\"price\":\x7b\"effective\":1500\x7d,\"flags\":\x7b\"outOfStock\":true\x7d\x7d"

/-- A marker script whose decoded object nests a truthy non-mapping under
the product-data key. -/
def listPdpScript : String := "var pdpData=\x7b\"pdpData\":[1]\x7d"

/-- A marker script with a complete object followed by a trailing
semicolon. -/
def trailingScript : String := "var pdpData=\x7b\"a\":1\x7d;"

/-! ### Claims -/

/-- Claim C8: for every input URL whose host does not contain
"myntra.com", the handler fails with status 400 and the unsupported-domain
message, and no outbound fetch is performed. -/
theorem unsupported_domain_no_fetch (f : String → List String)
    (netloc : String) (net : Option UpstreamResp)
    (h : containsSub domainChars netloc.toList = false) :
    fetchMyntraProduct f netloc net
      = (.error (.http 400 "Only myntra.com product URLs are supported"), 0) := by
  unfold fetchMyntraProduct
  rw [h]
  simp

theorem unsupported_domain_no_fetch_witness :
    fetchMyntraProduct (fun _ => []) "example.com" none
      = (.error (.http 400 "Only myntra.com product URLs are supported"), 0) :=
  unsupported_domain_no_fetch (fun _ => []) "example.com" none rfl

/-- Claim C1 (counterexample): with upstream status 403 and a body
containing "Access Denied", the handler reports the generic non-200
message, which is not the blocked-page message the claim requires. -/
theorem status403_blocked_body_counterexample :
    fetchMyntraProduct (fun _ => []) "www.myntra.com"
        (some ⟨403, "Access Denied"⟩)
      = (.error (.http 403 "Myntra returned HTTP 403"), 1)
    ∧ "Myntra returned HTTP 403"
      ≠ "Myntra blocked the request (Access Denied). Try again or use another proxy." :=
  ⟨rfl, by decide⟩

/-- Claim C1 (amended): a 403 upstream response is classified by the
generic non-200 branch even when its body contains "Access Denied"; the
body-based block detection never applies to a non-200 response, though
the reported status is still 403. -/
theorem status403_blocked_body_generic (f : String → List String)
    (netloc body : String)
    (hd : containsSub domainChars netloc.toList = true)
    (hb : containsSub accessDeniedChars body.toList = true) :
    fetchMyntraProduct f netloc (some ⟨403, body⟩)
      = (.error (.http 403 "Myntra returned HTTP 403"), 1) := by
  unfold fetchMyntraProduct
  rw [hd]
  simp
  rfl

theorem status403_blocked_body_generic_witness :
    fetchMyntraProduct (fun _ => ["x"]) "www.myntra.com"
        (some ⟨403, "Access Denied page"⟩)
      = (.error (.http 403 "Myntra returned HTTP 403"), 1) :=
  status403_blocked_body_generic (fun _ => ["x"]) "www.myntra.com"
    "Access Denied page" rfl rfl

/-- Claim C2 (counterexample): when the decoded object nests a truthy
non-mapping under the product-data key, the handler's outcome is an
unclassified escaped exception, not a classified 500 response. -/
theorem schema_mismatch_counterexample :
    fetchMyntraProduct (fun _ => [listPdpScript]) "www.myntra.com"
        (some ⟨200, "page"⟩)
      = (.error (.uncaught "AttributeError"), 1) := rfl

/-- Claim C2 (amended): a decoded value whose effective record is a
truthy non-mapping makes the Field Mapper raise, and that exception is
not caught anywhere in the handler: it escapes unclassified (the serving
framework, outside the handler, turns it into a generic 500). -/
theorem schema_mismatch_uncaught (scripts : List String)
    (t js : List Char) (raw v : JsonV)
    (hf : findScript scripts = some t)
    (he : extractJsonStr t = .ok js)
    (hl : loads js = .ok raw)
    (hp : pyGet raw "pdpData" = .ok v)
    (htr : truthy v = true)
    (hob : isObj v = false) :
    locateAndMap scripts = .error (.uncaught "AttributeError") := by
  unfold locateAndMap
  simp only [hf, marker_text_ne_empty t (findScript_marker scripts t hf),
    Bool.false_eq_true, if_false, he, hl,
    mapRecord_nonobj raw v hp htr hob]

theorem schema_mismatch_uncaught_witness :
    locateAndMap [listPdpScript] = .error (.uncaught "AttributeError") :=
  schema_mismatch_uncaught [listPdpScript] listPdpScript.toList
    (listPdpScript.toList.dropWhile (fun c => c ≠ lbrace))
    (JsonV.obj [("pdpData", JsonV.arr [JsonV.num 1])])
    (JsonV.arr [JsonV.num 1]) rfl rfl rfl rfl rfl rfl

/-- Claim C7: mapping the entirely empty decoded object succeeds with all
defaults: title "Unknown Product", empty image, zero prices, in stock. -/
theorem empty_record_defaults :
    mapRecord (JsonV.obj [])
      = .ok ⟨"Unknown Product", "", 0, 0, true⟩ := rfl

/-- Claim C5: the scenario markup whose script holds the Shoe object maps
to exactly the expected record. -/
theorem shoe_scenario :
    locateAndMap [shoeScript] = .ok ⟨"Shoe", "", 2000, 1500, false⟩ := rfl

/-- Claim C4 (counterexample): a falsy product-data value is not
descended into: with record `{"pdpData": {}, "name": "X"}` the effective
record is the whole value and the title comes out as "X", not the
"Unknown Product" the empty sub-record would give. -/
theorem falsy_pdpdata_counterexample :
    pyGet (JsonV.obj [("pdpData", JsonV.obj []), ("name", JsonV.str "X")])
        "pdpData" = .ok (JsonV.obj [])
    ∧ effectiveRecord
        (JsonV.obj [("pdpData", JsonV.obj []), ("name", JsonV.str "X")])
      = .ok (JsonV.obj [("pdpData", JsonV.obj []), ("name", JsonV.str "X")])
    ∧ mapRecord
        (JsonV.obj [("pdpData", JsonV.obj []), ("name", JsonV.str "X")])
      = .ok ⟨"X", "", 0, 0, true⟩ :=
  ⟨rfl, rfl, rfl⟩

/-- Claim C4 (amended): the Field Mapper descends into the top-level
product-data key only when its value is truthy; a falsy value there (such
as an empty object or null) leaves the whole decoded value as the
effective record. -/
theorem effective_record_truthy_descent (kvs : List (String × JsonV))
    (v : JsonV)
    (h : pyGet (JsonV.obj kvs) "pdpData" = .ok v) :
    effectiveRecord (JsonV.obj kvs)
      = .ok (if truthy v then v else JsonV.obj kvs) := by
  unfold effectiveRecord
  rw [h]
  simp [Except.bind, pyOr]

theorem effective_record_truthy_descent_witness :
    effectiveRecord (JsonV.obj [("pdpData", JsonV.obj [])])
      = .ok (if truthy (JsonV.obj []) then JsonV.obj []
             else JsonV.obj [("pdpData", JsonV.obj [])]) :=
  effective_record_truthy_descent [("pdpData", JsonV.obj [])]
    (JsonV.obj []) rfl

/-- Claim C10: a marker script with no opening brace at all fails through
the parse-error branch (status 500, "Failed to parse product JSON: ..."),
because the failed brace lookup is caught by the same handler as a decode
failure. -/
theorem no_brace_parse_error (scripts : List String) (t : List Char)
    (hf : findScript scripts = some t)
    (hb : t.contains lbrace = false) :
    locateAndMap scripts
      = .error (.http 500 "Failed to parse product JSON: substring not found") := by
  unfold locateAndMap
  simp only [hf, marker_text_ne_empty t (findScript_marker scripts t hf),
    Bool.false_eq_true, if_false]
  simp only [extractJsonStr, hb, Bool.false_eq_true, if_false]
  rfl

theorem no_brace_parse_error_witness :
    locateAndMap ["no brace but pdpData here"]
      = .error (.http 500 "Failed to parse product JSON: substring not found") :=
  no_brace_parse_error ["no brace but pdpData here"]
    ("no brace but pdpData here".toList) rfl rfl

/-- Claim C9: when the brace-suffix of the marker script decodes to a
complete JSON object followed by trailing non-whitespace, the
whole-suffix decode rejects the trailing content and the pipeline fails
with the 500 parse-error classification. -/
theorem trailing_content_parse_error (scripts : List String)
    (t suf rest : List Char) (m : List (String × JsonV))
    (hf : findScript scripts = some t)
    (he : extractJsonStr t = .ok suf)
    (hp : parseVal (suf.length + 2) suf = some (JsonV.obj m, rest))
    (hr : skipWs rest ≠ []) :
    locateAndMap scripts
      = .error (.http 500 "Failed to parse product JSON: Extra data") := by
  unfold locateAndMap
  simp only [hf, marker_text_ne_empty t (findScript_marker scripts t hf),
    Bool.false_eq_true, if_false, he]
  simp [loads, hp, hr]

theorem trailing_content_parse_error_witness :
    locateAndMap [trailingScript]
      = .error (.http 500 "Failed to parse product JSON: Extra data") :=
  trailing_content_parse_error [trailingScript] trailingScript.toList
    (trailingScript.toList.dropWhile (fun c => c ≠ lbrace)) [';']
    [("a", JsonV.num 1)] rfl rfl rfl (by decide)

/-- Claim C3 (counterexample): a negative numeric value in a price source
field flows through to a negative output price. -/
theorem negative_price_counterexample :
    mapRecord (JsonV.obj [("mrp", JsonV.num (-5))])
      = .ok ⟨"Unknown Product", "", -5, -5, true⟩
    ∧ ((-5 : Int) < 0) :=
  ⟨rfl, by decide⟩

/-- Claim C3 (amended): the returned prices are integers, and they are
non-negative provided every price source position holds a value whose
integer cast (when it succeeds) is non-negative; the chain defaults alone
never introduce a negative value. -/
theorem prices_nonneg_of_nonneg_sources (raw data pinfo : JsonV)
    (r : ProductResponse)
    (hd : effectiveRecord raw = .ok data)
    (hpi : priceInfoExpr data = .ok pinfo)
    (s1 : nonNegSrc (pyGet data "mrp"))
    (s2 : nonNegSrc (pyGet pinfo "mrp"))
    (s3 : nonNegSrc (pyGet pinfo "marked"))
    (s4 : nonNegSrc (pyGet data "discountedPrice"))
    (s5 : nonNegSrc (pyGet pinfo "discountedPrice"))
    (s6 : nonNegSrc (pyGet pinfo "effective"))
    (hm : mapRecord raw = .ok r) :
    0 ≤ r.original_price ∧ 0 ≤ r.discounted_price := by
  obtain ⟨data', pinfo', opv, dpv, hd', hpi', ho, hdc, hon, hdn⟩ :=
    mapRecord_ok_parts raw r hm
  rw [hd] at hd'
  injection hd' with e1
  subst e1
  rw [hpi] at hpi'
  injection hpi' with e2
  subst e2
  have hop : 0 ≤ r.original_price := by
    rcases originalExpr_cases data pinfo opv ho with
      ⟨hsrc, htr⟩ | ⟨hsrc, htr⟩ | ⟨hsrc, htr⟩ | hz
    · rw [show pyOr opv (JsonV.num 0) = opv by simp [pyOr, htr]] at hon
      exact s1 opv r.original_price hsrc hon
    · rw [show pyOr opv (JsonV.num 0) = opv by simp [pyOr, htr]] at hon
      exact s2 opv r.original_price hsrc hon
    · rw [show pyOr opv (JsonV.num 0) = opv by simp [pyOr, htr]] at hon
      exact s3 opv r.original_price hsrc hon
    · subst hz
      rw [show pyInt (pyOr (JsonV.num 0) (JsonV.num 0)) = .ok 0 from rfl] at hon
      injection hon with e
      omega
  refine ⟨hop, ?_⟩
  rcases discountedExpr_cases data pinfo opv dpv hdc with
    ⟨hsrc, htr⟩ | ⟨hsrc, htr⟩ | ⟨hsrc, htr⟩ | hop'
  · rw [show pyOr dpv (JsonV.num 0) = dpv by simp [pyOr, htr]] at hdn
    exact s4 dpv r.discounted_price hsrc hdn
  · rw [show pyOr dpv (JsonV.num 0) = dpv by simp [pyOr, htr]] at hdn
    exact s5 dpv r.discounted_price hsrc hdn
  · rw [show pyOr dpv (JsonV.num 0) = dpv by simp [pyOr, htr]] at hdn
    exact s6 dpv r.discounted_price hsrc hdn
  · subst hop'
    rw [hon] at hdn
    injection hdn with e
    rw [← e]
    exact hop

theorem nonNegSrc_ok_null : nonNegSrc (Except.ok JsonV.null) := by
  intro v n hv hn
  injection hv with h
  subst h
  simp [pyInt] at hn

theorem nonNegSrc_ok_nonneg (m : Int) (hm : 0 ≤ m) :
    nonNegSrc (Except.ok (JsonV.num m)) := by
  intro v n hv hn
  injection hv with h
  subst h
  injection hn with h2
  omega

theorem prices_nonneg_of_nonneg_sources_witness :
    0 ≤ (ProductResponse.mk "Unknown Product" "" 2000 2000 true).original_price
    ∧ 0 ≤ (ProductResponse.mk "Unknown Product" "" 2000 2000 true).discounted_price :=
  prices_nonneg_of_nonneg_sources
    (JsonV.obj [("mrp", JsonV.num 2000)])
    (JsonV.obj [("mrp", JsonV.num 2000)])
    (JsonV.obj [])
    (ProductResponse.mk "Unknown Product" "" 2000 2000 true)
    rfl rfl
    (nonNegSrc_ok_nonneg 2000 (by decide))
    nonNegSrc_ok_null
    nonNegSrc_ok_null
    nonNegSrc_ok_null
    nonNegSrc_ok_null
    nonNegSrc_ok_null
    rfl

/-- Claim C6: when no discount-specific source is truthy at any fallback
position, the returned discounted price equals the returned original
price. -/
theorem discount_defaults_to_original (raw data pinfo : JsonV)
    (r : ProductResponse)
    (hd : effectiveRecord raw = .ok data)
    (hpi : priceInfoExpr data = .ok pinfo)
    (h1 : ∀ v, pyGet data "discountedPrice" = .ok v → truthy v = false)
    (h2 : ∀ v, pyGet pinfo "discountedPrice" = .ok v → truthy v = false)
    (h3 : ∀ v, pyGet pinfo "effective" = .ok v → truthy v = false)
    (hm : mapRecord raw = .ok r) :
    r.discounted_price = r.original_price := by
  obtain ⟨data', pinfo', opv, dpv, hd', hpi', ho, hdc, hon, hdn⟩ :=
    mapRecord_ok_parts raw r hm
  rw [hd] at hd'
  injection hd' with e1
  subst e1
  rw [hpi] at hpi'
  injection hpi' with e2
  subst e2
  have hdo : dpv = opv := by
    rcases discountedExpr_cases data pinfo opv dpv hdc with
      ⟨hsrc, htr⟩ | ⟨hsrc, htr⟩ | ⟨hsrc, htr⟩ | hop'
    · rw [h1 dpv hsrc] at htr
      cases htr
    · rw [h2 dpv hsrc] at htr
      cases htr
    · rw [h3 dpv hsrc] at htr
      cases htr
    · exact hop'
  subst hdo
  rw [hon] at hdn
  injection hdn with e
  exact e.symm

theorem discount_defaults_to_original_witness :
    (ProductResponse.mk "Unknown Product" "" 100 100 true).discounted_price
      = (ProductResponse.mk "Unknown Product" "" 100 100 true).original_price :=
  discount_defaults_to_original
    (JsonV.obj [("mrp", JsonV.num 100)])
    (JsonV.obj [("mrp", JsonV.num 100)])
    (JsonV.obj [])
    (ProductResponse.mk "Unknown Product" "" 100 100 true)
    rfl rfl
    (fun v hv => by
      injection hv with h
      subst h
      rfl)
    (fun v hv => by
      injection hv with h
      subst h
      rfl)
    (fun v hv => by
      injection hv with h
      subst h
      rfl)
    rfl
